import Mathlib

/-!
Shallow embedding of the load-test clients in `tcp_load_test.py` and
`rudp_load_test.py`.

Conventions of the embedding:
* Python floats are modelled as rationals (`ℚ`); every operation the claims
  touch (addition, clamping with `max`/`min`, division) is exact at the
  inputs the claims evaluate, so no rounding behaviour is lost.
* Wall-clock reads (`time.time() - start_time`, send durations) are passed
  in as explicit parameters.
* Randomness (`random.uniform`, `random.random() < 0.1`) is passed in as
  explicit oracle values (`TickRand`, the `rnd` argument of
  `create_players`).
* A statement in the Python source that may raise is modelled by a boolean
  oracle saying whether it raises on this call; an `except` handler becomes
  the corresponding branch.  Functions whose every exception is caught
  internally are total here, mirroring the fact that they never propagate
  an exception to the caller.
-/

namespace PoliceThief

/-- `WORLD_SIZE = 100.0` from both load-test scripts. -/
def WORLD_SIZE : ℚ := 100

/-- `NUM_ROOMS = 100`. -/
def NUM_ROOMS : Nat := 100

/-- `PLAYERS_PER_ROOM = 10`. -/
def PLAYERS_PER_ROOM : Nat := 10

/-- `TOTAL_PLAYERS = NUM_ROOMS * PLAYERS_PER_ROOM`. -/
def TOTAL_PLAYERS : Nat := NUM_ROOMS * PLAYERS_PER_ROOM

/-- The `PerformanceMetrics` dataclass.  The TCP variant has all the fields
below; the RUDP variant lacks `connections` and `connection_errors` (its
operations here never touch them). -/
structure PerformanceMetrics where
  messages_sent : Nat := 0
  messages_received : Nat := 0
  bytes_sent : Nat := 0
  bytes_received : Nat := 0
  errors : Nat := 0
  connections : Nat := 0
  connection_errors : Nat := 0
  latencies : List ℚ := []
deriving Repr, DecidableEq

namespace PerformanceMetrics

/-- `avg_latency`: `sum(latencies)/len(latencies) if latencies else 0`. -/
def avg_latency (m : PerformanceMetrics) : ℚ :=
  if m.latencies = [] then 0 else m.latencies.sum / m.latencies.length

/-- `max_latency`: Python's `max(latencies)` (left fold of binary max) on a
non-empty list, `0` otherwise. -/
def max_latency (m : PerformanceMetrics) : ℚ :=
  match m.latencies with
  | [] => 0
  | x :: xs => xs.foldl max x

/-- `min_latency`: Python's `min(latencies)` on a non-empty list, else `0`. -/
def min_latency (m : PerformanceMetrics) : ℚ :=
  match m.latencies with
  | [] => 0
  | x :: xs => xs.foldl min x

/-- `messages_per_second`: `messages_sent / elapsed if elapsed > 0 else 0`,
with `elapsed = time.time() - start_time` passed explicitly. -/
def messages_per_second (m : PerformanceMetrics) (elapsed : ℚ) : ℚ :=
  if 0 < elapsed then (m.messages_sent : ℚ) / elapsed else 0

/-- `throughput_mbps`: `((bytes_sent+bytes_received) * 8 / 1_000_000) /
elapsed if elapsed > 0 else 0`. -/
def throughput_mbps (m : PerformanceMetrics) (elapsed : ℚ) : ℚ :=
  if 0 < elapsed then
    (((m.bytes_sent + m.bytes_received : Nat) : ℚ) * 8 / 1000000) / elapsed
  else 0

/-- The error rate used by `print_results` and `evaluate_performance`:
`errors / max(1, messages_sent)`. -/
def error_rate (m : PerformanceMetrics) : ℚ :=
  (m.errors : ℚ) / ((max 1 m.messages_sent : Nat) : ℚ)

/-- The connection success rate printed by the TCP `print_results`:
`connections / (connections + max(1, connection_errors)) * 100`. -/
def connection_success_rate (m : PerformanceMetrics) : ℚ :=
  (m.connections : ℚ) / ((m.connections + max 1 m.connection_errors : Nat) : ℚ)
    * 100

end PerformanceMetrics

/-- A 3-component vector (the 3-element Python lists `position` and
`velocity`); `x`, `y`, `z` are components 0, 1, 2. -/
structure Vec3 where
  x : ℚ
  y : ℚ
  z : ℚ
deriving Repr, DecidableEq

/-- A `VirtualPlayer`'s own fields.  The transport handle
(`socket` / `reader`/`writer` plus the TCP `connected` flag) is modelled
separately as `TcpConn` / a boolean, since the claims track it separately. -/
structure VirtualPlayer where
  player_id : Nat
  room_id : Nat
  position : Vec3
  velocity : Vec3
  is_running : Bool
deriving Repr, DecidableEq

/-- `VirtualPlayer.__init__`: the four `random.uniform` draws are passed in
(`rx`, `ry` are drawn from `uniform(0, WORLD_SIZE)`, `vx`, `vy` from
`uniform(-1, 1)`); components 2 of position and velocity start at 0. -/
def VirtualPlayer.create (player_id room_id : Nat) (rx ry vx vy : ℚ) :
    VirtualPlayer :=
  { player_id := player_id
    room_id := room_id
    position := ⟨rx, ry, 0⟩
    velocity := ⟨vx, vy, 0⟩
    is_running := true }

/-- `VirtualPlayer.stop`: clears the `is_running` flag. -/
def VirtualPlayer.stop (p : VirtualPlayer) : VirtualPlayer :=
  { p with is_running := false }

/-- The per-axis body of the world-boundary loop in `update_position`:
`if pos < 0 or pos > WORLD_SIZE: vel *= -1; pos = max(0, min(WORLD_SIZE, pos))`.
Returns the new `(position, velocity)` for that axis. -/
def reflect_axis (pos vel : ℚ) : ℚ × ℚ :=
  if pos < 0 ∨ WORLD_SIZE < pos then (max 0 (min WORLD_SIZE pos), -vel)
  else (pos, vel)

/-- The random inputs and observed send behaviour of one `update_position`
call: whether `random.random() < 0.1` fired and the two fresh
`uniform(-1,1)` draws; whether the send raised; the encoded packet length;
and the measured wall-clock send duration (ms). -/
structure TickRand where
  resample : Bool
  new_vx : ℚ
  new_vy : ℚ
  sendOk : Bool
  packet_len : Nat
  send_duration : ℚ
deriving Repr, DecidableEq

/-- The physics part of `update_position` (identical in both scripts):
advance the two planar axes by velocity, run the boundary loop over axes
0 and 1, then with probability 0.1 resample both planar velocities. -/
def move_step (pos vel : Vec3) (r : TickRand) : Vec3 × Vec3 :=
  let px := pos.x + vel.x
  let py := pos.y + vel.y
  let rx := reflect_axis px vel.x
  let ry := reflect_axis py vel.y
  let vx2 := if r.resample then r.new_vx else rx.2
  let vy2 := if r.resample then r.new_vy else ry.2
  (⟨rx.1, ry.1, pos.z⟩, ⟨vx2, vy2, vel.z⟩)

/-! ## RUDP client operations (`rudp_load_test.py`) -/

/-- RUDP `send_message`: encode, `sendto`; on success increment
`messages_sent` and `bytes_sent` by the packet length, on any exception
increment `errors`.  Never raises to its caller. -/
def rudp_send_message (sendOk : Bool) (packet_len : Nat)
    (m : PerformanceMetrics) : PerformanceMetrics :=
  if sendOk then
    { m with messages_sent := m.messages_sent + 1
             bytes_sent := m.bytes_sent + packet_len }
  else
    { m with errors := m.errors + 1 }

/-- RUDP `connect`: create the UDP socket (`sockOk` says whether that
raises), then send the `connect` message via `send_message` (which swallows
its own failures, recorded by `sendOk`).  On a raise: `errors += 1` and
`False`; otherwise `True`.  Returns (metrics, returned-bool). -/
def rudp_connect (sockOk sendOk : Bool) (packet_len : Nat)
    (m : PerformanceMetrics) : PerformanceMetrics × Bool :=
  if sockOk then (rudp_send_message sendOk packet_len m, true)
  else ({ m with errors := m.errors + 1 }, false)

/-- RUDP `update_position`: physics (`move_step`), then send the `move`
message and append one latency sample (the measured send duration) —
unconditionally, whether or not the send failed. -/
def rudp_update_position (p : VirtualPlayer) (r : TickRand)
    (m : PerformanceMetrics) : VirtualPlayer × PerformanceMetrics :=
  let pv := move_step p.position p.velocity r
  let m1 := rudp_send_message r.sendOk r.packet_len m
  let m2 := { m1 with latencies := m1.latencies ++ [r.send_duration] }
  ({ p with position := pv.1, velocity := pv.2 }, m2)

/-- The `while self.is_running` tick loop of RUDP `run`, executing one
`update_position` per `TickRand`; the list length is the number of ticks
that happen before the orchestrator's `stop` is observed. -/
def rudp_tick_loop (p : VirtualPlayer) (m : PerformanceMetrics) :
    List TickRand → VirtualPlayer × PerformanceMetrics
  | [] => (p, m)
  | r :: rs =>
      let pm := rudp_update_position p r m
      rudp_tick_loop pm.1 pm.2 rs

/-- RUDP `disconnect`: if the socket exists, best-effort send of the
`disconnect` message (via `send_message`, which never raises) and close;
any exception is swallowed by the bare `except`. -/
def rudp_disconnect (has_socket sendOk : Bool) (packet_len : Nat)
    (m : PerformanceMetrics) : PerformanceMetrics :=
  if has_socket then rudp_send_message sendOk packet_len m else m

/-- The random/send oracle of a `connect` call: whether transport
acquisition raised, whether the initial send raised, and the encoded
`connect` packet length. -/
structure ConnectRand where
  sockOk : Bool
  sendOk : Bool
  packet_len : Nat
deriving Repr, DecidableEq

/-- RUDP `run`: connect; on `False` return at once (no tick, no
disconnect).  Otherwise tick for the given schedule, then (in `finally`)
disconnect.  The third component is the number of ticks executed. -/
def rudp_run (c : ConnectRand) (ticks : List TickRand)
    (dSendOk : Bool) (dLen : Nat) (p : VirtualPlayer)
    (m : PerformanceMetrics) : VirtualPlayer × PerformanceMetrics × Nat :=
  let cm := rudp_connect c.sockOk c.sendOk c.packet_len m
  if cm.2 then
    let pm := rudp_tick_loop p cm.1 ticks
    (pm.1, rudp_disconnect true dSendOk dLen pm.2, ticks.length)
  else (p, cm.1, 0)

/-! ## TCP client operations (`tcp_load_test.py`) -/

/-- The TCP transport handle state: whether `self.writer` is set and the
`self.connected` flag. -/
structure TcpConn where
  has_writer : Bool
  connected : Bool
deriving Repr, DecidableEq

/-- TCP `send_message`: return silently when there is no writer or the
client is not connected; otherwise write the frame — on success increment
`messages_sent`/`bytes_sent`, on an exception increment `errors`.  Never
raises to its caller. -/
def tcp_send_message (conn : TcpConn) (sendOk : Bool) (packet_len : Nat)
    (m : PerformanceMetrics) : PerformanceMetrics :=
  if !conn.has_writer || !conn.connected then m
  else if sendOk then
    { m with messages_sent := m.messages_sent + 1
             bytes_sent := m.bytes_sent + packet_len }
  else
    { m with errors := m.errors + 1 }

/-- Result of TCP `connect`: the metrics, the transport handle, and the
returned boolean. -/
structure TcpConnectResult where
  metrics : PerformanceMetrics
  conn : TcpConn
  ok : Bool
deriving Repr, DecidableEq

/-- TCP `connect`: `open_connection` (the handshake; `handshakeOk` says
whether it raises).  On success: set `connected`, `connections += 1`, send
the `connect` message via `send_message` (which swallows its own failure,
recorded by `sendOk`), return `True`.  On a handshake raise:
`connection_errors += 1`, return `False`. -/
def tcp_connect (handshakeOk sendOk : Bool) (packet_len : Nat)
    (m : PerformanceMetrics) : TcpConnectResult :=
  if handshakeOk then
    let conn : TcpConn := { has_writer := true, connected := true }
    let m1 := { m with connections := m.connections + 1 }
    { metrics := tcp_send_message conn sendOk packet_len m1
      conn := conn
      ok := true }
  else
    { metrics := { m with connection_errors := m.connection_errors + 1 }
      conn := { has_writer := false, connected := false }
      ok := false }

/-- TCP `update_position`: identical physics, then send the `move` message
through the TCP `send_message` and append one latency sample. -/
def tcp_update_position (conn : TcpConn) (p : VirtualPlayer) (r : TickRand)
    (m : PerformanceMetrics) : VirtualPlayer × PerformanceMetrics :=
  let pv := move_step p.position p.velocity r
  let m1 := tcp_send_message conn r.sendOk r.packet_len m
  let m2 := { m1 with latencies := m1.latencies ++ [r.send_duration] }
  ({ p with position := pv.1, velocity := pv.2 }, m2)

/-- The TCP tick loop of `run`. -/
def tcp_tick_loop (conn : TcpConn) (p : VirtualPlayer)
    (m : PerformanceMetrics) :
    List TickRand → VirtualPlayer × PerformanceMetrics
  | [] => (p, m)
  | r :: rs =>
      let pm := tcp_update_position conn p r m
      tcp_tick_loop conn pm.1 pm.2 rs

/-- Result of TCP `disconnect`: metrics, the `connected` flag afterwards,
and whether `writer.close()` was reached and completed. -/
structure TcpDisconnectResult where
  metrics : PerformanceMetrics
  connected : Bool
  writer_closed : Bool
deriving Repr, DecidableEq

/-- TCP `disconnect`: when a writer exists and the client is connected,
best-effort send of the `disconnect` message via `send_message` (which
never raises), then `writer.close()` / `wait_closed()` and clear
`connected`; any exception in the close path (`closeOk = false`) is
swallowed by the `except` with `connected` left set.  Never raises. -/
def tcp_disconnect (conn : TcpConn) (sendOk closeOk : Bool)
    (packet_len : Nat) (m : PerformanceMetrics) : TcpDisconnectResult :=
  if conn.has_writer && conn.connected then
    let m1 := tcp_send_message conn sendOk packet_len m
    if closeOk then
      { metrics := m1, connected := false, writer_closed := true }
    else
      { metrics := m1, connected := true, writer_closed := false }
  else
    { metrics := m, connected := conn.connected, writer_closed := false }

/-- TCP `run`: connect; on `False` return at once (zero ticks, no
disconnect).  Otherwise run the tick loop, then (in `finally`) disconnect.
Third component: number of ticks executed. -/
def tcp_run (handshakeOk connSendOk : Bool) (connLen : Nat)
    (ticks : List TickRand) (dSendOk dCloseOk : Bool) (dLen : Nat)
    (p : VirtualPlayer) (m : PerformanceMetrics) :
    VirtualPlayer × PerformanceMetrics × Nat :=
  let cr := tcp_connect handshakeOk connSendOk connLen m
  if cr.ok then
    let pm := tcp_tick_loop cr.conn p cr.metrics ticks
    (pm.1, (tcp_disconnect cr.conn dSendOk dCloseOk dLen pm.2).metrics,
      ticks.length)
  else (p, cr.metrics, 0)

/-! ## TCP background receive loop (`read_messages`) -/

/-- `struct.unpack('!I', ...)`: big-endian 32-bit length from 4 bytes. -/
def decodeLen (b0 b1 b2 b3 : Nat) : Nat :=
  ((b0 * 256 + b1) * 256 + b2) * 256 + b3

/-- The 4-byte big-endian encoding of a length below `2^32`
(`struct.pack('!I', n)`). -/
def encodeLen32 (n : Nat) : List Nat :=
  [n / 16777216 % 256, n / 65536 % 256, n / 256 % 256, n % 256]

/-- TCP `read_messages` over the inbound byte stream (the stream is the
full byte sequence the peer will deliver; `reader.read(n)` yields the next
`min(n, remaining)` bytes).  Per iteration: read the 4-byte header (break
on short read), decode the length, break when it exceeds `1024*1024`, read
the payload (break on short read), then count the message and
`4 + length` bytes received.  The `is_running`/`connected` guards stay
true for the duration modelled here (nothing in the loop changes them),
and every loop exit in the source is a `break` — the function returns
normally. -/
def read_messages (m : PerformanceMetrics) : List Nat → PerformanceMetrics
  | b0 :: b1 :: b2 :: b3 :: rest =>
      let len := decodeLen b0 b1 b2 b3
      if 1024 * 1024 < len then m
      else if rest.length < len then m
      else
        read_messages
          { m with messages_received := m.messages_received + 1
                   bytes_received := m.bytes_received + (4 + len) }
          (rest.drop len)
  | _ => m
termination_by l => l.length
decreasing_by simp [List.length_drop]; omega

/-! ## Orchestrator population build (`create_players`) -/

/-- `LoadTestManager.create_players`: for each `room_id < NUM_ROOMS` and
`player_idx < PLAYERS_PER_ROOM`, build
`VirtualPlayer(room_id * PLAYERS_PER_ROOM + player_idx, room_id, metrics)`;
`rnd` supplies each player's four `random.uniform` draws, indexed by
`player_id`. -/
def create_players (rnd : Nat → ℚ × ℚ × ℚ × ℚ) : List VirtualPlayer :=
  (List.range NUM_ROOMS).flatMap fun room_id =>
    (List.range PLAYERS_PER_ROOM).map fun player_idx =>
      let pid := room_id * PLAYERS_PER_ROOM + player_idx
      VirtualPlayer.create pid room_id (rnd pid).1 (rnd pid).2.1
        (rnd pid).2.2.1 (rnd pid).2.2.2

/-! ## Scorer (`evaluate_performance`, RUDP variant) -/

/-- The breakdown produced by the RUDP `evaluate_performance`: the points
earned on each axis, the running `score`/`max_score` totals, the percentage
`total_score`, and the letter grade. -/
structure EvalResult where
  throughput_points : Nat
  latency_points : Nat
  error_points : Nat
  score : Nat
  max_score : Nat
  total_score : ℚ
  grade : String
deriving Repr, DecidableEq

/-- The grade bands at the end of `evaluate_performance`:
`>= 80 → "A"`, `elif >= 60 → "B"`, `else "C"`. -/
def grade_of (total_score : ℚ) : String :=
  if 80 ≤ total_score then "A" else if 60 ≤ total_score then "B" else "C"

/-- RUDP `evaluate_performance` as a function of the final snapshot and the
elapsed time read when scoring: three axes (throughput 30 pts: tiers at
10000 / 5000 msg/s; latency 30 pts: tiers at 50 / 100 ms; error rate
40 pts: tiers at 0.001 / 0.01), `total_score = score / max_score * 100`,
grade from the bands. -/
def rudp_evaluate_performance (m : PerformanceMetrics) (elapsed : ℚ) :
    EvalResult :=
  let msg_per_sec := m.messages_per_second elapsed
  let avg_latency := m.avg_latency
  let error_rate := m.error_rate
  let tp : Nat := if 10000 ≤ msg_per_sec then 30
    else if 5000 ≤ msg_per_sec then 20 else 10
  let lp : Nat := if avg_latency ≤ 50 then 30
    else if avg_latency ≤ 100 then 20 else 10
  let ep : Nat := if error_rate < 1/1000 then 40
    else if error_rate < 1/100 then 25 else 10
  let score := tp + lp + ep
  let max_score : Nat := 30 + 30 + 40
  let total : ℚ := ((score : ℚ) / (max_score : ℚ)) * 100
  { throughput_points := tp
    latency_points := lp
    error_points := ep
    score := score
    max_score := max_score
    total_score := total
    grade := grade_of total }

/-! ## Helper lemmas -/

lemma rudp_update_position_latency_len (p : VirtualPlayer) (r : TickRand)
    (m : PerformanceMetrics) :
    (rudp_update_position p r m).2.latencies.length =
      m.latencies.length + 1 := by
  cases hr : r.sendOk <;>
    simp [rudp_update_position, rudp_send_message, hr]

lemma rudp_tick_loop_counts (ticks : List TickRand) (p : VirtualPlayer)
    (m : PerformanceMetrics) (h : ∀ t ∈ ticks, t.sendOk = true) :
    (rudp_tick_loop p m ticks).2.messages_sent =
        m.messages_sent + ticks.length ∧
      (rudp_tick_loop p m ticks).2.latencies.length =
        m.latencies.length + ticks.length ∧
      (rudp_tick_loop p m ticks).2.errors = m.errors := by
  induction ticks generalizing p m with
  | nil => simp [rudp_tick_loop]
  | cons r rs ih =>
      have hr : r.sendOk = true := h r (List.mem_cons_self _ _)
      have ih' := ih (rudp_update_position p r m).1
        (rudp_update_position p r m).2
        (fun t ht => h t (List.mem_cons_of_mem _ ht))
      simp only [rudp_tick_loop] at ih' ⊢
      rw [ih'.1, ih'.2.1, ih'.2.2]
      simp [rudp_update_position, rudp_send_message, hr]
      omega

/-! ## Claim theorems -/

/-- C1 (counterexample): a concrete RUDP client run with zero send
failures — a successful connect, three ticks whose sends all succeed, and a
successful disconnect send — ends with 3 latency samples but
`messages_sent = 5` (the `connect` and `disconnect` sends increment
`messages_sent` without appending a sample), so
`len(latency_samples) = messages_sent` fails even with zero failures. -/
theorem rudp_run_latency_count_ne_messages_sent :
    ((rudp_run ⟨true, true, 50⟩
        [⟨false, 0, 0, true, 60, 2⟩, ⟨false, 0, 0, true, 60, 2⟩,
          ⟨false, 0, 0, true, 60, 2⟩]
        true 55 (VirtualPlayer.create 0 0 1 1 1 1) {}).2.1.errors = 0) ∧
      ((rudp_run ⟨true, true, 50⟩
        [⟨false, 0, 0, true, 60, 2⟩, ⟨false, 0, 0, true, 60, 2⟩,
          ⟨false, 0, 0, true, 60, 2⟩]
        true 55 (VirtualPlayer.create 0 0 1 1 1 1) {}).2.1.latencies.length = 3) ∧
      ((rudp_run ⟨true, true, 50⟩
        [⟨false, 0, 0, true, 60, 2⟩, ⟨false, 0, 0, true, 60, 2⟩,
          ⟨false, 0, 0, true, 60, 2⟩]
        true 55 (VirtualPlayer.create 0 0 1 1 1 1) {}).2.1.messages_sent = 5) ∧
      ¬((rudp_run ⟨true, true, 50⟩
        [⟨false, 0, 0, true, 60, 2⟩, ⟨false, 0, 0, true, 60, 2⟩,
          ⟨false, 0, 0, true, 60, 2⟩]
        true 55 (VirtualPlayer.create 0 0 1 1 1 1) {}).2.1.latencies.length =
        (rudp_run ⟨true, true, 50⟩
        [⟨false, 0, 0, true, 60, 2⟩, ⟨false, 0, 0, true, 60, 2⟩,
          ⟨false, 0, 0, true, 60, 2⟩]
        true 55 (VirtualPlayer.create 0 0 1 1 1 1) {}).2.1.messages_sent) := by
  decide

/-- C1 (amended): for an RUDP client whose whole run has zero send
failures, counting increments from a fresh metrics object, the run performs
`ticks + 2` increments of `messages_sent` (one `connect`, one per `Move`
tick, one `disconnect`) while appending exactly `ticks` latency samples
(one per tick), with `errors` left at 0; moreover every single
`update_position` call appends exactly one latency sample whether or not
its send succeeds. -/
theorem rudp_run_message_and_sample_counts (c : ConnectRand)
    (ticks : List TickRand) (dLen : Nat) (p : VirtualPlayer)
    (hs : c.sockOk = true) (hc : c.sendOk = true)
    (ht : ∀ t ∈ ticks, t.sendOk = true) :
    (rudp_run c ticks true dLen p {}).2.1.messages_sent = ticks.length + 2 ∧
      (rudp_run c ticks true dLen p {}).2.1.latencies.length = ticks.length ∧
      (rudp_run c ticks true dLen p {}).2.1.errors = 0 ∧
      (∀ (q : VirtualPlayer) (r : TickRand) (m : PerformanceMetrics),
        (rudp_update_position q r m).2.latencies.length =
          m.latencies.length + 1) := by
  refine ⟨?_, ?_, ?_, fun q r m => rudp_update_position_latency_len q r m⟩ <;>
  · have hloop := rudp_tick_loop_counts ticks p
      (rudp_connect c.sockOk c.sendOk c.packet_len {}).1 ht
    simp only [rudp_run, rudp_connect, hs, hc, if_pos, rudp_send_message,
      rudp_disconnect, if_true] at hloop ⊢
    simp [rudp_send_message] at hloop ⊢
    omega

/-- C1 witness: the amended count theorem applied to a concrete two-tick
all-successful run. -/
theorem rudp_run_message_and_sample_counts_witness :
    (rudp_run ⟨true, true, 50⟩
        [⟨false, 0, 0, true, 60, 2⟩, ⟨true, 1, 0, true, 61, 3⟩]
        true 55 (VirtualPlayer.create 0 0 1 1 1 1) {}).2.1.messages_sent = 4 ∧
      (rudp_run ⟨true, true, 50⟩
        [⟨false, 0, 0, true, 60, 2⟩, ⟨true, 1, 0, true, 61, 3⟩]
        true 55 (VirtualPlayer.create 0 0 1 1 1 1) {}).2.1.latencies.length = 2 := by
  have h := rudp_run_message_and_sample_counts ⟨true, true, 50⟩
    [⟨false, 0, 0, true, 60, 2⟩, ⟨true, 1, 0, true, 61, 3⟩]
    55 (VirtualPlayer.create 0 0 1 1 1 1) rfl rfl (by decide)
  exact ⟨h.1, h.2.1⟩

/-- C2 (counterexample): a TCP client whose handshake succeeds but whose
initial `connect`-message send raises: `send_message` swallows the
exception and increments `errors`, `connect` still returns `True`, so
`connection_errors` is not incremented (stays 0, not +1) and the client
does enter the tick loop (here it executes 1 tick, not 0) — refuting both
parts of the claim at this input. -/
theorem tcp_connect_send_failure_still_active :
    ((tcp_connect true false 40 {}).ok = true) ∧
      ((tcp_connect true false 40 {}).metrics.connection_errors = 0) ∧
      ((tcp_connect true false 40 {}).metrics.errors = 1) ∧
      ((tcp_run true false 40 [⟨false, 0, 0, true, 60, 2⟩] true true 30
          (VirtualPlayer.create 0 0 1 1 1 1) {}).2.2 = 1) ∧
      ¬((tcp_run true false 40 [⟨false, 0, 0, true, 60, 2⟩] true true 30
          (VirtualPlayer.create 0 0 1 1 1 1) {}).2.2 = 0) := by
  decide

/-- C2 (amended): on the connection-oriented transport a handshake failure
increments `connection_errors` by exactly one, `connect` returns `False`,
and the client executes zero ticks with `messages_sent` untouched; a
failure of the initial send after a successful handshake instead
increments `errors` (not `connection_errors`) and the client still becomes
Active.  On the connectionless transport (which has no `connection_errors`
counter) a socket-setup failure increments `errors` and the client
executes zero ticks, while an initial-send failure increments `errors` and
`connect` still returns `True`. -/
theorem connect_failure_counters (m : PerformanceMetrics) (sOk : Bool)
    (len : Nat) (ticks : List TickRand) (dOk dcOk : Bool) (dLen : Nat)
    (p : VirtualPlayer) :
    ((tcp_connect false sOk len m).metrics.connection_errors =
        m.connection_errors + 1 ∧
      (tcp_connect false sOk len m).ok = false ∧
      (tcp_run false sOk len ticks dOk dcOk dLen p m).2.2 = 0 ∧
      (tcp_run false sOk len ticks dOk dcOk dLen p m).2.1.messages_sent =
        m.messages_sent) ∧
    ((tcp_connect true false len m).metrics.errors = m.errors + 1 ∧
      (tcp_connect true false len m).metrics.connection_errors =
        m.connection_errors ∧
      (tcp_connect true false len m).ok = true) ∧
    ((rudp_connect false sOk len m).1.errors = m.errors + 1 ∧
      (rudp_connect false sOk len m).2 = false ∧
      (rudp_run ⟨false, sOk, len⟩ ticks dOk dLen p m).2.2 = 0 ∧
      (rudp_run ⟨false, sOk, len⟩ ticks dOk dLen p m).2.1.messages_sent =
        m.messages_sent) ∧
    ((rudp_connect true false len m).1.errors = m.errors + 1 ∧
      (rudp_connect true false len m).2 = true) := by
  refine ⟨⟨?_, ?_, ?_, ?_⟩, ⟨?_, ?_, ?_⟩, ⟨?_, ?_, ?_, ?_⟩, ?_, ?_⟩ <;>
    simp [tcp_connect, tcp_run, tcp_send_message, rudp_connect, rudp_run,
      rudp_send_message]

/-- C3 (counterexample): a connected TCP client whose best-effort
`disconnect` send raises: nothing propagates and the writer is still
closed, but the `errors` counter is incremented from 0 to 1 — refuting
"not counted in the errors counter" at this input. -/
theorem tcp_disconnect_send_failure_counted :
    ((tcp_disconnect ⟨true, true⟩ false true 30 {}).writer_closed = true) ∧
      ((tcp_disconnect ⟨true, true⟩ false true 30 {}).metrics.errors = 1) ∧
      ¬((tcp_disconnect ⟨true, true⟩ false true 30 {}).metrics.errors = 0) := by
  decide

/-- C3 (amended): a failure of the best-effort `Disconnect` send is caught
inside `send_message`, so nothing is raised to the caller, `messages_sent`
and `bytes_sent` are untouched, the writer is still closed and the
`connected` flag cleared — but it is counted: `errors` is incremented by
exactly one. -/
theorem tcp_disconnect_send_failure_swallowed (m : PerformanceMetrics)
    (len : Nat) :
    (tcp_disconnect ⟨true, true⟩ false true len m).metrics.errors =
        m.errors + 1 ∧
      (tcp_disconnect ⟨true, true⟩ false true len m).metrics.messages_sent =
        m.messages_sent ∧
      (tcp_disconnect ⟨true, true⟩ false true len m).metrics.bytes_sent =
        m.bytes_sent ∧
      (tcp_disconnect ⟨true, true⟩ false true len m).writer_closed = true ∧
      (tcp_disconnect ⟨true, true⟩ false true len m).connected = false := by
  simp [tcp_disconnect, tcp_send_message]

/-- C4 (counterexample): a client at `x = WORLD_SIZE - 0.1`, `vx = +1` for
which the 10%-probability random direction change fires in the same tick
and draws `new_vx = 1`: after `update_position` the position is clamped to
`WORLD_SIZE` but the velocity component 0 is `1`, not strictly negative. -/
theorem update_position_resample_keeps_vx_nonneg :
    ((rudp_update_position
        (VirtualPlayer.create 0 0 (WORLD_SIZE - 1/10) 5 1 0)
        ⟨true, 1, 0, true, 10, 0⟩ {}).1.position.x = WORLD_SIZE) ∧
      ((rudp_update_position
        (VirtualPlayer.create 0 0 (WORLD_SIZE - 1/10) 5 1 0)
        ⟨true, 1, 0, true, 10, 0⟩ {}).1.velocity.x = 1) ∧
      ¬((rudp_update_position
        (VirtualPlayer.create 0 0 (WORLD_SIZE - 1/10) 5 1 0)
        ⟨true, 1, 0, true, 10, 0⟩ {}).1.velocity.x < 0) := by
  refine ⟨?_, ?_, ?_⟩ <;>
    · simp only [rudp_update_position, move_step, reflect_axis,
        VirtualPlayer.create]
      norm_num [WORLD_SIZE]

/-- C4 (amended): a client at `x = WORLD_SIZE - 0.1`, `vx = +1` has, after
one `update_position`, `x = WORLD_SIZE` unconditionally; its `vx` is
strictly negative provided the random direction resample did not fire in
that tick (when it fires, `vx` is the fresh uniform draw, which may be
nonnegative). -/
theorem update_position_boundary_reflection (p : VirtualPlayer)
    (r : TickRand) (m : PerformanceMetrics)
    (hx : p.position.x = WORLD_SIZE - 1/10) (hv : p.velocity.x = 1) :
    (rudp_update_position p r m).1.position.x = WORLD_SIZE ∧
      (r.resample = false →
        (rudp_update_position p r m).1.velocity.x < 0) := by
  constructor
  · simp only [rudp_update_position, move_step, reflect_axis, hx, hv]
    norm_num [WORLD_SIZE]
  · intro hres
    simp only [rudp_update_position, move_step, reflect_axis, hx, hv, hres]
    norm_num [WORLD_SIZE]

/-- C4 witness: the amended reflection theorem applied to a concrete
client with no resample in the tick. -/
theorem update_position_boundary_reflection_witness :
    ((rudp_update_position
        (VirtualPlayer.create 1 0 (WORLD_SIZE - 1/10) 5 1 0)
        ⟨false, 0, 0, true, 10, 0⟩ {}).1.position.x = WORLD_SIZE) ∧
      ((rudp_update_position
        (VirtualPlayer.create 1 0 (WORLD_SIZE - 1/10) 5 1 0)
        ⟨false, 0, 0, true, 10, 0⟩ {}).1.velocity.x < 0) := by
  have h := update_position_boundary_reflection
    (VirtualPlayer.create 1 0 (WORLD_SIZE - 1/10) 5 1 0)
    ⟨false, 0, 0, true, 10, 0⟩ {} rfl rfl
  exact ⟨h.1, h.2 rfl⟩

/-! ### Fold lemmas for Python `max(list)` / `min(list)` -/

lemma le_foldl_max (xs : List ℚ) : ∀ a : ℚ, a ≤ xs.foldl max a := by
  induction xs with
  | nil => intro a; simp
  | cons x xs ih =>
      intro a
      exact le_trans (le_max_left a x) (ih (max a x))

lemma mem_le_foldl_max (xs : List ℚ) : ∀ (a y : ℚ), y ∈ xs →
    y ≤ xs.foldl max a := by
  induction xs with
  | nil => intro a y hy; simp at hy
  | cons x xs ih =>
      intro a y hy
      rcases List.mem_cons.mp hy with h | h
      · subst h
        exact le_trans (le_max_right a y) (le_foldl_max xs (max a y))
      · exact ih (max a x) y h

lemma foldl_max_mem (xs : List ℚ) : ∀ a : ℚ,
    xs.foldl max a = a ∨ xs.foldl max a ∈ xs := by
  induction xs with
  | nil => intro a; simp
  | cons x xs ih =>
      intro a
      rcases ih (max a x) with h | h
      · rcases max_choice a x with hm | hm
        · exact Or.inl (by rw [List.foldl_cons, h]; exact hm)
        · refine Or.inr ?_
          rw [List.foldl_cons, h, hm]
          exact List.mem_cons_self x xs
      · refine Or.inr (List.mem_cons_of_mem _ ?_)
        rw [List.foldl_cons]
        exact h

lemma foldl_min_le (xs : List ℚ) : ∀ a : ℚ, xs.foldl min a ≤ a := by
  induction xs with
  | nil => intro a; simp
  | cons x xs ih =>
      intro a
      exact le_trans (ih (min a x)) (min_le_left a x)

lemma foldl_min_le_mem (xs : List ℚ) : ∀ (a y : ℚ), y ∈ xs →
    xs.foldl min a ≤ y := by
  induction xs with
  | nil => intro a y hy; simp at hy
  | cons x xs ih =>
      intro a y hy
      rcases List.mem_cons.mp hy with h | h
      · subst h
        exact le_trans (foldl_min_le xs (min a y)) (min_le_right a y)
      · exact ih (min a x) y h

lemma foldl_min_mem (xs : List ℚ) : ∀ a : ℚ,
    xs.foldl min a = a ∨ xs.foldl min a ∈ xs := by
  induction xs with
  | nil => intro a; simp
  | cons x xs ih =>
      intro a
      rcases ih (min a x) with h | h
      · rcases min_choice a x with hm | hm
        · exact Or.inl (by rw [List.foldl_cons, h]; exact hm)
        · refine Or.inr ?_
          rw [List.foldl_cons, h, hm]
          exact List.mem_cons_self x xs
      · refine Or.inr (List.mem_cons_of_mem _ ?_)
        rw [List.foldl_cons]
        exact h

/-- C5: a connectionless-transport snapshot reading 12000 msg/s, 10 ms
average latency and a 0.05% error rate earns the top tier on all three
evaluated axes (30 + 30 + 40), the total score is
`score / max_score * 100` (structurally, for every snapshot), here 100,
and the grade is "A"; the grade bands are exactly `≥80 → "A"`,
`[60,80) → "B"`, `<60 → "C"`. -/
theorem rudp_scoring_top_tier (m : PerformanceMetrics) (elapsed : ℚ)
    (h1 : m.messages_per_second elapsed = 12000)
    (h2 : m.avg_latency = 10)
    (h3 : m.error_rate = 1/2000) :
    (rudp_evaluate_performance m elapsed).throughput_points = 30 ∧
      (rudp_evaluate_performance m elapsed).latency_points = 30 ∧
      (rudp_evaluate_performance m elapsed).error_points = 40 ∧
      (rudp_evaluate_performance m elapsed).total_score = 100 ∧
      (rudp_evaluate_performance m elapsed).grade = "A" ∧
      (∀ (n : PerformanceMetrics) (e : ℚ),
        (rudp_evaluate_performance n e).total_score =
          ((rudp_evaluate_performance n e).score : ℚ) /
            ((rudp_evaluate_performance n e).max_score : ℚ) * 100) ∧
      (∀ t : ℚ, (grade_of t = "A" ↔ 80 ≤ t) ∧
        (grade_of t = "B" ↔ 60 ≤ t ∧ t < 80) ∧
        (grade_of t = "C" ↔ t < 60)) := by
  refine ⟨?_, ?_, ?_, ?_, ?_, fun n e => rfl, fun t => ?_⟩
  · simp only [rudp_evaluate_performance, h1]; norm_num
  · simp only [rudp_evaluate_performance, h2]; norm_num
  · simp only [rudp_evaluate_performance, h3]; norm_num
  · simp only [rudp_evaluate_performance, h1, h2, h3]; norm_num
  · simp only [rudp_evaluate_performance, h1, h2, h3]
    norm_num [grade_of]
  · unfold grade_of
    by_cases h80 : 80 ≤ t
    · rw [if_pos h80]
      refine ⟨iff_of_true rfl h80, iff_of_false (by decide) ?_,
        iff_of_false (by decide) ?_⟩
      · rintro ⟨-, hlt⟩; exact absurd h80 (not_le.mpr hlt)
      · intro hlt
        exact absurd h80 (not_le.mpr (hlt.trans_le (by norm_num)))
    · rw [if_neg h80]
      by_cases h60 : 60 ≤ t
      · rw [if_pos h60]
        exact ⟨iff_of_false (by decide) h80,
          iff_of_true rfl ⟨h60, not_le.mp h80⟩,
          iff_of_false (by decide) (not_lt.mpr h60)⟩
      · rw [if_neg h60]
        exact ⟨iff_of_false (by decide) h80,
          iff_of_false (by decide) (fun hc => h60 hc.1),
          iff_of_true rfl (not_le.mp h60)⟩

/-- C5 witness: the scoring theorem applied to a concrete snapshot
(12000 messages in 1 s, 6 errors, one 10 ms sample). -/
theorem rudp_scoring_top_tier_witness :
    (rudp_evaluate_performance
        { messages_sent := 12000, errors := 6, latencies := [10] } 1).grade
        = "A" ∧
      (rudp_evaluate_performance
        { messages_sent := 12000, errors := 6, latencies := [10] } 1).total_score
        = 100 := by
  have h := rudp_scoring_top_tier
    { messages_sent := 12000, errors := 6, latencies := [10] } 1
    (by norm_num [PerformanceMetrics.messages_per_second])
    (by norm_num [PerformanceMetrics.avg_latency])
    (by norm_num [PerformanceMetrics.error_rate])
  exact ⟨h.2.2.2.2.1, h.2.2.2.1⟩

/-- C6: with a positive elapsed time, the derived metrics are computed on
read by the stated formulas — `messages_per_second = messages_sent /
elapsed`, `throughput_mbps = 8*(bytes_sent+bytes_received)/10^6/elapsed`,
`avg_latency` the mean of the sample sequence, `max_latency`/`min_latency`
a maximum/minimum of it — and the concrete snapshot with
`messages_sent = 1000`, `errors = 1`, `elapsed = 10` reads
`messages_per_second = 100` and `error_rate = 1/1000` (0.1%). -/
theorem derived_metrics_formulas (m : PerformanceMetrics) (elapsed : ℚ)
    (h : 0 < elapsed) :
    m.messages_per_second elapsed = (m.messages_sent : ℚ) / elapsed ∧
      m.throughput_mbps elapsed =
        8 * ((m.bytes_sent : ℚ) + (m.bytes_received : ℚ)) / 1000000
          / elapsed ∧
      (m.latencies ≠ [] →
        m.avg_latency = m.latencies.sum / (m.latencies.length : ℚ)) ∧
      (m.latencies ≠ [] → m.max_latency ∈ m.latencies ∧
        ∀ y ∈ m.latencies, y ≤ m.max_latency) ∧
      (m.latencies ≠ [] → m.min_latency ∈ m.latencies ∧
        ∀ y ∈ m.latencies, m.min_latency ≤ y) ∧
      (m.messages_sent = 1000 → elapsed = 10 →
        m.messages_per_second elapsed = 100) ∧
      (m.messages_sent = 1000 → m.errors = 1 →
        m.error_rate = 1/1000) := by
  refine ⟨?_, ?_, ?_, ?_, ?_, ?_, ?_⟩
  · simp [PerformanceMetrics.messages_per_second, h]
  · simp only [PerformanceMetrics.throughput_mbps, if_pos h]
    push_cast
    ring
  · intro hl
    simp [PerformanceMetrics.avg_latency, hl]
  · intro hl
    rcases hlat : m.latencies with _ | ⟨x, xs⟩
    · exact absurd hlat hl
    · constructor
      · simp only [PerformanceMetrics.max_latency, hlat]
        rcases foldl_max_mem xs x with he | he
        · simp [he]
        · exact List.mem_cons_of_mem _ he
      · intro y hy
        simp only [PerformanceMetrics.max_latency, hlat] at hy ⊢
        rcases List.mem_cons.mp hy with h' | h'
        · subst h'; exact le_foldl_max xs y
        · exact mem_le_foldl_max xs x y h'
  · intro hl
    rcases hlat : m.latencies with _ | ⟨x, xs⟩
    · exact absurd hlat hl
    · constructor
      · simp only [PerformanceMetrics.min_latency, hlat]
        rcases foldl_min_mem xs x with he | he
        · simp [he]
        · exact List.mem_cons_of_mem _ he
      · intro y hy
        simp only [PerformanceMetrics.min_latency, hlat] at hy ⊢
        rcases List.mem_cons.mp hy with h' | h'
        · subst h'; exact foldl_min_le xs y
        · exact foldl_min_le_mem xs x y h'
  · intro hs he
    simp only [PerformanceMetrics.messages_per_second, hs, he]
    norm_num
  · intro hs he
    simp only [PerformanceMetrics.error_rate, hs, he]
    norm_num

/-- C6 witness: the derived-metrics theorem applied to a concrete snapshot
with 1000 messages, 1 error, a single 2 ms latency sample, elapsed 10 s. -/
theorem derived_metrics_formulas_witness :
    (PerformanceMetrics.messages_per_second
        { messages_sent := 1000, errors := 1, latencies := [2] } 10 = 100) ∧
      (PerformanceMetrics.error_rate
        { messages_sent := 1000, errors := 1, latencies := [2] } = 1/1000) := by
  have h := derived_metrics_formulas
    { messages_sent := 1000, errors := 1, latencies := [2] } 10
    (by norm_num)
  exact ⟨h.2.2.2.2.2.1 rfl rfl, h.2.2.2.2.2.2 rfl rfl⟩

/-- The positional invariant of §3: planar components within
`[0, WORLD_SIZE]`, component 2 equal to 0. -/
def pos_invariant (v : Vec3) : Prop :=
  0 ≤ v.x ∧ v.x ≤ WORLD_SIZE ∧ 0 ≤ v.y ∧ v.y ≤ WORLD_SIZE ∧ v.z = 0

lemma reflect_axis_bounds (pos vel : ℚ) :
    0 ≤ (reflect_axis pos vel).1 ∧ (reflect_axis pos vel).1 ≤ WORLD_SIZE := by
  unfold reflect_axis
  split_ifs with hcond
  · refine ⟨le_max_left 0 _, max_le ?_ (min_le_left _ _)⟩
    norm_num [WORLD_SIZE]
  · push_neg at hcond
    exact ⟨le_of_not_lt (fun hlt => absurd hlt (not_lt.mpr hcond.1)),
      hcond.2⟩

/-- C7: the position invariant — planar components inside
`[0, WORLD_SIZE]` and component 2 equal to 0 — holds at creation (the
initial draws come from `uniform(0, WORLD_SIZE)`) and is re-established by
every `update_position` on either transport (the boundary clamp restores
the range whatever the pre-state; component 2 is never written). -/
theorem position_invariant_preserved :
    (∀ (pid rid : Nat) (rx ry vx vy : ℚ),
      0 ≤ rx → rx ≤ WORLD_SIZE → 0 ≤ ry → ry ≤ WORLD_SIZE →
      pos_invariant (VirtualPlayer.create pid rid rx ry vx vy).position) ∧
    (∀ (p : VirtualPlayer) (r : TickRand) (m : PerformanceMetrics),
      p.position.z = 0 →
      pos_invariant (rudp_update_position p r m).1.position) ∧
    (∀ (conn : TcpConn) (p : VirtualPlayer) (r : TickRand)
        (m : PerformanceMetrics),
      p.position.z = 0 →
      pos_invariant (tcp_update_position conn p r m).1.position) := by
  have hmove : ∀ (pos vel : Vec3) (r : TickRand), pos.z = 0 →
      pos_invariant (move_step pos vel r).1 := by
    intro pos vel r hz
    unfold move_step pos_invariant
    refine ⟨(reflect_axis_bounds _ _).1, (reflect_axis_bounds _ _).2,
      (reflect_axis_bounds _ _).1, (reflect_axis_bounds _ _).2, hz⟩
  refine ⟨?_, ?_, ?_⟩
  · intro pid rid rx ry vx vy h1 h2 h3 h4
    exact ⟨h1, h2, h3, h4, rfl⟩
  · intro p r m hz
    exact hmove p.position p.velocity r hz
  · intro conn p r m hz
    exact hmove p.position p.velocity r hz

/-- C7 witness: the invariant theorem applied to a concrete creation and
a concrete out-of-range tick. -/
theorem position_invariant_preserved_witness :
    pos_invariant (VirtualPlayer.create 7 0 3 97 1 1).position ∧
      pos_invariant (rudp_update_position (VirtualPlayer.create 7 0 3 97 1 1)
        ⟨false, 0, 0, true, 10, 0⟩ {}).1.position := by
  refine ⟨position_invariant_preserved.1 7 0 3 97 1 1 (by norm_num)
      (by norm_num [WORLD_SIZE]) (by norm_num) (by norm_num [WORLD_SIZE]),
    position_invariant_preserved.2.1 (VirtualPlayer.create 7 0 3 97 1 1)
      ⟨false, 0, 0, true, 10, 0⟩ {} rfl⟩

lemma range_flatMap_mul (n k : Nat) :
    (List.range n).flatMap (fun r => (List.range k).map (fun i => r * k + i))
      = List.range (n * k) := by
  induction n with
  | zero => simp
  | succ n ih =>
      rw [List.range_succ, List.flatMap_append, ih, Nat.succ_mul,
        List.range_add]
      simp [Nat.mul_comm]

/-- C8: for every client built by `create_players`, `room_id` is
`player_id / PLAYERS_PER_ROOM` by integer division; the `player_id`s of
the population are pairwise distinct; and neither field is written by any
later operation on a player (`update_position` on either transport and
`stop`, the only player mutators, preserve both). -/
theorem create_players_partition (rnd : Nat → ℚ × ℚ × ℚ × ℚ) :
    (∀ p, p ∈ create_players rnd →
        p.room_id = p.player_id / PLAYERS_PER_ROOM) ∧
      ((create_players rnd).map VirtualPlayer.player_id).Nodup ∧
      (∀ (p : VirtualPlayer) (r : TickRand) (m : PerformanceMetrics),
        (rudp_update_position p r m).1.player_id = p.player_id ∧
          (rudp_update_position p r m).1.room_id = p.room_id) ∧
      (∀ (conn : TcpConn) (p : VirtualPlayer) (r : TickRand)
          (m : PerformanceMetrics),
        (tcp_update_position conn p r m).1.player_id = p.player_id ∧
          (tcp_update_position conn p r m).1.room_id = p.room_id) ∧
      (∀ p : VirtualPlayer, (VirtualPlayer.stop p).player_id = p.player_id ∧
        (VirtualPlayer.stop p).room_id = p.room_id) := by
  refine ⟨?_, ?_, ?_, ?_, ?_⟩
  · intro p hp
    simp only [create_players, List.mem_flatMap, List.mem_map,
      List.mem_range] at hp
    obtain ⟨r, hr, i, hi, rfl⟩ := hp
    simp only [VirtualPlayer.create, PLAYERS_PER_ROOM] at *
    omega
  · have hmap : (create_players rnd).map VirtualPlayer.player_id
        = (List.range NUM_ROOMS).flatMap
            (fun r => (List.range PLAYERS_PER_ROOM).map
              (fun i => r * PLAYERS_PER_ROOM + i)) := by
      simp [create_players, List.map_flatMap, List.map_map,
        Function.comp_def, VirtualPlayer.create]
    rw [hmap, range_flatMap_mul]
    exact List.nodup_range _
  · intro p r m
    exact ⟨rfl, rfl⟩
  · intro conn p r m
    exact ⟨rfl, rfl⟩
  · intro p
    exact ⟨rfl, rfl⟩

/-- C8 witness: the partition theorem applied to a concrete population
member, the player built for room 0, index 0 under a constant random
oracle. -/
theorem create_players_partition_witness :
    (VirtualPlayer.create 0 0 1 2 0 0).room_id =
      (VirtualPlayer.create 0 0 1 2 0 0).player_id / PLAYERS_PER_ROOM := by
  have hp : VirtualPlayer.create 0 0 1 2 0 0 ∈
      create_players (fun _ => (1, 2, 0, 0)) := by
    unfold create_players
    refine List.mem_flatMap.mpr ⟨0, List.mem_range.mpr ?_, ?_⟩
    · norm_num [NUM_ROOMS]
    · exact List.mem_map.mpr ⟨0, List.mem_range.mpr
        (by norm_num [PLAYERS_PER_ROOM]), rfl⟩
  exact (create_players_partition (fun _ => (1, 2, 0, 0))).1 _ hp

/-- Decoding the 4-byte big-endian encoding of a 32-bit length yields the
length back. -/
lemma decode_encodeLen32 (L : Nat) (h : L < 4294967296) :
    decodeLen (L / 16777216 % 256) (L / 65536 % 256) (L / 256 % 256)
      (L % 256) = L := by
  unfold decodeLen
  omega

lemma read_messages_errors (m : PerformanceMetrics) (l : List Nat) :
    (read_messages m l).errors = m.errors := by
  induction m, l using read_messages.induct with
  | case1 m b0 b1 b2 b3 rest len hbig => rw [read_messages, if_pos hbig]
  | case2 m b0 b1 b2 b3 rest len hbig hshort =>
      rw [read_messages, if_neg hbig, if_pos hshort]
  | case3 m b0 b1 b2 b3 rest len hbig hshort ih =>
      rw [read_messages, if_neg hbig, if_neg hshort]
      exact ih
  | case4 m l h => rw [read_messages]; exact h

/-- C9: when the background receive loop meets a frame whose 4-byte
big-endian length prefix declares more than `1024*1024` bytes, it returns
at once with the metrics exactly as they were (whatever bytes follow), and
— for every inbound stream whatsoever — `read_messages` returns normally
without ever touching the `errors` counter; it writes nothing outside the
metrics object passed to it, so no other client's state is involved. -/
theorem read_messages_oversized_frame (m : PerformanceMetrics) (L : Nat)
    (junk : List Nat) (h1 : 1024 * 1024 < L) (h2 : L < 4294967296) :
    read_messages m (encodeLen32 L ++ junk) = m ∧
      ∀ (n : PerformanceMetrics) (l : List Nat),
        (read_messages n l).errors = n.errors := by
  refine ⟨?_, fun n l => read_messages_errors n l⟩
  simp only [encodeLen32, List.cons_append, List.nil_append]
  rw [read_messages, decode_encodeLen32 L h2]
  rw [if_pos h1]

/-- C9 witness: the oversized-frame theorem applied to a 2 MB declared
length followed by stray bytes. -/
theorem read_messages_oversized_frame_witness :
    read_messages {} (encodeLen32 2097152 ++ [1, 2, 3]) = {} := by
  exact (read_messages_oversized_frame {} 2097152 [1, 2, 3] (by norm_num)
    (by norm_num)).1

/-- C10: the connection success rate printed in the TCP final report is
`connections / (connections + max(1, connection_errors))`, so with zero
connection errors and at least one successful connection it equals
`connections / (connections + 1) * 100`, which is strictly below 100%;
with 1000 successful connections and zero errors it reports
`100000/1001` percent (the fraction `1000/1001`). -/
theorem connection_success_rate_below_100 (m : PerformanceMetrics)
    (h0 : m.connection_errors = 0) (h1 : 0 < m.connections) :
    m.connection_success_rate =
        (m.connections : ℚ) / ((m.connections : ℚ) + 1) * 100 ∧
      m.connection_success_rate < 100 ∧
      (m.connections = 1000 →
        m.connection_success_rate = 100000 / 1001) := by
  have hform : m.connection_success_rate =
      (m.connections : ℚ) / ((m.connections : ℚ) + 1) * 100 := by
    simp only [PerformanceMetrics.connection_success_rate, h0]
    norm_num
  have hpos : (0 : ℚ) < (m.connections : ℚ) + 1 := by positivity
  have hc1 : (1 : ℚ) ≤ (m.connections : ℚ) := by
    exact_mod_cast h1
  have hlt : (m.connections : ℚ) / ((m.connections : ℚ) + 1) < 1 := by
    rw [div_lt_one hpos]
    linarith
  refine ⟨hform, ?_, ?_⟩
  · rw [hform]
    calc (m.connections : ℚ) / ((m.connections : ℚ) + 1) * 100
        < 1 * 100 := by
          exact mul_lt_mul_of_pos_right hlt (by norm_num)
      _ = 100 := by norm_num
  · intro hc
    rw [hform, hc]
    norm_num

/-- C10 witness: the success-rate theorem applied to a snapshot with 1000
connections and zero connection errors. -/
theorem connection_success_rate_below_100_witness :
    PerformanceMetrics.connection_success_rate { connections := 1000 }
        = 100000 / 1001 ∧
      PerformanceMetrics.connection_success_rate { connections := 1000 }
        < 100 := by
  have h := connection_success_rate_below_100 { connections := 1000 } rfl
    (by norm_num)
  exact ⟨h.2.2 rfl, h.2.1⟩

end PoliceThief
